import Mathlib

/-!
Shallow embedding of `src/app.py`: a single-endpoint order/registration
gateway.  The mutable JSON file database is modelled as an association
list from the RM identifier to an optional address record (a JSON null is
`none`); the external ViaCEP HTTP service is modelled by an
`HttpResponse` input describing what the service did; the Google Sheets
log is modelled by a `SheetWorld` input describing which sheet calls
raise.  Python exceptions escaping a function are modelled by
`Except.error`; dictionaries returned to the caller are modelled by the
`Payload` structure.
-/

namespace PokeStore

/-- A flat JSON-ish value, enough to carry the fields the program moves
around: strings, integers (`numero`), numbers (`valor`), booleans and
null. -/
inductive JValue where
  | jstr : String → JValue
  | jint : Int → JValue
  | jnum : Rat → JValue
  | jb : Bool → JValue
  | jnull : JValue
deriving DecidableEq

/-- A Python dict with string keys, as stored in the DB file or received
as a JSON body: an association list. -/
abbrev Rec := List (String × JValue)

/-- The database file content: a mapping from RM identifier to an
address record or JSON null (`none`). -/
abbrev Db := List (String × Option Rec)

/-- First-match lookup in a record, i.e. Python `d[k]` returning
`none` where Python would raise `KeyError`. -/
def lookupKey : Rec → String → Option JValue
  | [], _ => none
  | (k2, v) :: rest, k => if k2 = k then some v else lookupKey rest k

/-- Python `k in d.keys()`. -/
def hasKey (r : Rec) (k : String) : Bool :=
  (lookupKey r k).isSome

/-- Python `d[k]`: the value, or a raised `KeyError` carrying the key. -/
def getKey (r : Rec) (k : String) : Except String JValue :=
  match lookupKey r k with
  | some v => Except.ok v
  | none => Except.error s!"KeyError: {k}"

/-- Lookup of an RM identifier in the database mapping
(Python `rm in db.keys()` / `db[rm]`). -/
def lookupDb : Db → String → Option (Option Rec)
  | [], _ => none
  | (k2, v) :: rest, k => if k2 = k then some v else lookupDb rest k

/-- Python `db[rm] = address`: replace the entry when present, append it
otherwise. -/
def dbSet : Db → String → Option Rec → Db
  | [], k, v => [(k, v)]
  | (k2, w) :: rest, k, v =>
      if k2 = k then (k, v) :: rest else (k2, w) :: dbSet rest k v

/-- The result dictionaries the operations return: `error` plus the
optional `status`, `detail` and `data` keys (a key the Python dict does
not carry is `none`). -/
inductive ResultData where
  | recData : Rec → ResultData
  | strData : String → ResultData
deriving DecidableEq

/-- A response payload dictionary. -/
structure Payload where
  error : Bool
  status : Option String
  detail : Option String
  data : Option ResultData
deriving DecidableEq

/-- What the external ViaCEP HTTP call did: the `requests.get` raised a
`RequestException`, `raise_for_status` raised (error HTTP status), or a
JSON body came back. -/
inductive HttpResponse where
  | transportError : String → HttpResponse
  | httpError : String → HttpResponse
  | ok : Rec → HttpResponse
deriving DecidableEq

/-- An exception raised by a Google Sheets call: a
`gspread.exceptions.APIError` or some other exception. -/
inductive SheetExn where
  | apiError : String → SheetExn
  | otherExn : String → SheetExn
deriving DecidableEq

/-- What the Google Sheets calls do during an order: whether
`open_by_key(...).worksheet(...)` raises, and whether `append_row`
raises. `none` means the call succeeds. -/
structure SheetWorld where
  openExn : Option SheetExn
  appendExn : Option SheetExn
deriving DecidableEq

/-- `check_registration` (src/app.py lines 103-110): identifier absent →
`not_found`; present mapped to null → `unregistered_address`; present
mapped to a record → `registered` carrying that record. Reads the DB
snapshot only. -/
def check_registration (db : Db) (rm : String) : Payload :=
  match lookupDb db rm with
  | none =>
      ⟨true, some "not_found",
        some s!"RM {rm} not found in the database.", none⟩
  | some none =>
      ⟨true, some "unregistered_address",
        some s!"RM {rm} found in the database, but its address is None.", none⟩
  | some (some r) =>
      ⟨false, some "registered",
        some s!"RM {rm} found in the database.", some (ResultData.recData r)⟩

/-- `get_address` (src/app.py lines 113-129): a `RequestException` from
the GET or from `raise_for_status` is caught and returned as a soft
error; a body containing the key `erro` yields the soft error
"CEP not found."; otherwise the four address fields are read from the
body — a missing field raises `KeyError`, which the `except` clause
(catching only `RequestException`) does not catch, so it escapes. -/
def get_address (cep : String) (resp : HttpResponse) : Except String Payload :=
  match resp with
  | HttpResponse.transportError msg => Except.ok ⟨true, none, some msg, none⟩
  | HttpResponse.httpError msg => Except.ok ⟨true, none, some msg, none⟩
  | HttpResponse.ok body =>
      if hasKey body "erro" then
        Except.ok ⟨true, none, some "CEP not found.", none⟩
      else
        match getKey body "logradouro" with
        | Except.error e => Except.error e
        | Except.ok ru =>
            match getKey body "bairro" with
            | Except.error e => Except.error e
            | Except.ok ba =>
                match getKey body "localidade" with
                | Except.error e => Except.error e
                | Except.ok lo =>
                    match getKey body "uf" with
                    | Except.error e => Except.error e
                    | Except.ok uf =>
                        Except.ok ⟨false, none, none,
                          some (ResultData.recData
                            [("cep", JValue.jstr cep), ("rua", ru),
                             ("bairro", ba), ("cidade", lo),
                             ("estado", uf)])⟩

/-- The validated `save_address` request body (model `PayloadSaveAddress`,
src/app.py lines 61-65). -/
structure PayloadSaveAddress where
  rm : String
  cep : String
  numero : Int
  nome : String
deriving DecidableEq

/-- The validated `make_order_tech` request body (model
`PayloadMakeOrderTech`, src/app.py lines 70-74). -/
structure PayloadMakeOrderTech where
  rm : String
  produto : String
  marca : String
  valor : Rat
deriving DecidableEq

/-- The validated `make_order_poke` request body (model
`PayloadMakeOrderPoke`, src/app.py lines 76-84). -/
structure PayloadMakeOrderPoke where
  rm : String
  tamanho : String
  base : String
  topping : String
  crunch : String
  proteina : String
  molho : String
  valor : Rat
deriving DecidableEq

/-- `save_address` (src/app.py lines 132-154): read the DB, run the
registration check; `not_found` is returned as-is and blocks the save,
any other check outcome proceeds; a resolver soft error is returned
as-is; otherwise the merged address record is written under the RM key
and the `updated` payload returned. The function returns the payload
together with the DB content after the call (`write_db`). A `KeyError`
escaping `get_address` propagates (`Except.error`). -/
def save_address (p : PayloadSaveAddress) (db : Db) (resp : HttpResponse) :
    Except String (Payload × Db) :=
  let check := check_registration db p.rm
  if check.status = some "not_found" then
    Except.ok (check, db)
  else
    match get_address p.cep resp with
    | Except.error e => Except.error e
    | Except.ok details =>
        if details.error then
          Except.ok (details, db)
        else
          match details.data with
          | some (ResultData.recData ad) =>
              match getKey ad "rua" with
              | Except.error e => Except.error e
              | Except.ok ru =>
                  match getKey ad "bairro" with
                  | Except.error e => Except.error e
                  | Except.ok ba =>
                      match getKey ad "cidade" with
                      | Except.error e => Except.error e
                      | Except.ok ci =>
                          match getKey ad "estado" with
                          | Except.error e => Except.error e
                          | Except.ok es =>
                              Except.ok
                                (⟨false, some "updated", none,
                                   some (ResultData.strData
                                     s!"Address for RM {p.rm} updated successfully.")⟩,
                                 dbSet db p.rm (some
                                   [("cep", JValue.jstr p.cep), ("rua", ru),
                                    ("bairro", ba), ("cidade", ci),
                                    ("estado", es),
                                    ("numero", JValue.jint p.numero),
                                    ("nome", JValue.jstr p.nome)]))
          | _ => Except.error "KeyError: data"

/-- The `api_error` payload of the order functions. -/
def apiErrorPayload (msg : String) : Payload :=
  ⟨true, some "api_error",
    some s!"Error occurred while accessing Google Sheets API: {msg}", none⟩

/-- The `missing_data` payload of the order functions (Python formats
`str(KeyError)` into the detail; we carry the exception text). -/
def missingDataPayload (msg : String) : Payload :=
  ⟨true, some "missing_data",
    some s!"Missing data in address details: {msg}", none⟩

/-- The `unknown_error` payload of the order functions. -/
def unknownErrorPayload (msg : String) : Payload :=
  ⟨true, some "unknown_error",
    some s!"An unknown error occurred: {msg}", none⟩

/-- The `order_made` payload of the order functions. -/
def orderMadePayload (rm : String) : Payload :=
  ⟨false, some "order_made",
    some s!"Order for RM {rm} made successfully.", none⟩

/-- Map a raised sheet exception to the caught payload: `APIError` →
`api_error`, anything else → `unknown_error`. -/
def sheetExnPayload : SheetExn → Payload
  | SheetExn.apiError m => apiErrorPayload m
  | SheetExn.otherExn m => unknownErrorPayload m

/-- A sequence of Python dict accesses `d[k1], d[k2], ...` evaluated
left to right: the values, or the first raised `KeyError`. -/
def getKeys (r : Rec) : List String → Except String (List JValue)
  | [] => Except.ok []
  | k :: ks =>
      match getKey r k with
      | Except.error e => Except.error e
      | Except.ok v =>
          match getKeys r ks with
          | Except.error e => Except.error e
          | Except.ok vs => Except.ok (v :: vs)

/-- The address fields read from the stored record when building an
order row, in the source order of evaluation. -/
def orderAddressKeys : List String :=
  ["cep", "rua", "numero", "bairro", "cidade", "estado", "nome"]

/-- `make_order_tech` (src/app.py lines 157-196). `dbRead` is the
outcome of the `read_db` call inside `check_registration`, which runs
BEFORE the `try` block: its failure propagates. The returned `Bool`
records whether `sheet.append_row` was invoked. Inside the `try`:
worksheet opening may raise, the row build reads the address fields
(`KeyError` → `missing_data`), then `append_row` may raise. The second
component is the row handed to `sheet.append_row`, or `none` when that
call was never invoked. -/
def make_order_tech (p : PayloadMakeOrderTech) (dbRead : Except String Db)
    (w : SheetWorld) (ts : String) :
    Except String (Payload × Option (List JValue)) :=
  match dbRead with
  | Except.error e => Except.error e
  | Except.ok db =>
      let check := check_registration db p.rm
      if check.error then
        Except.ok (check, none)
      else
        match check.data with
        | some (ResultData.recData data) =>
            match w.openExn with
            | some e => Except.ok (sheetExnPayload e, none)
            | none =>
                match getKeys data orderAddressKeys with
                | Except.error k => Except.ok (missingDataPayload k, none)
                | Except.ok vs =>
                    let row := [JValue.jstr ts, JValue.jstr p.rm,
                      JValue.jstr p.produto, JValue.jstr p.marca,
                      JValue.jnum p.valor] ++ vs
                    match w.appendExn with
                    | some e => Except.ok (sheetExnPayload e, some row)
                    | none => Except.ok (orderMadePayload p.rm, some row)
        | _ => Except.error "KeyError: data"

/-- `make_order_poke` (src/app.py lines 199-242): same flow as
`make_order_tech` with the poke item fields in the row. -/
def make_order_poke (p : PayloadMakeOrderPoke) (dbRead : Except String Db)
    (w : SheetWorld) (ts : String) :
    Except String (Payload × Option (List JValue)) :=
  match dbRead with
  | Except.error e => Except.error e
  | Except.ok db =>
      let check := check_registration db p.rm
      if check.error then
        Except.ok (check, none)
      else
        match check.data with
        | some (ResultData.recData data) =>
            match w.openExn with
            | some e => Except.ok (sheetExnPayload e, none)
            | none =>
                match getKeys data orderAddressKeys with
                | Except.error k => Except.ok (missingDataPayload k, none)
                | Except.ok vs =>
                    let row := [JValue.jstr ts, JValue.jstr p.rm,
                      JValue.jstr p.tamanho, JValue.jstr p.base,
                      JValue.jstr p.topping, JValue.jstr p.crunch,
                      JValue.jstr p.proteina, JValue.jstr p.molho,
                      JValue.jnum p.valor] ++ vs
                    match w.appendExn with
                    | some e => Except.ok (sheetExnPayload e, some row)
                    | none => Except.ok (orderMadePayload p.rm, some row)
        | _ => Except.error "KeyError: data"

/-- The validated request body for one of the five actions (the union
type of src/app.py line 255). -/
inductive ActionInput where
  | getAddressIn : String → ActionInput
  | saveAddressIn : PayloadSaveAddress → ActionInput
  | checkRegistrationIn : String → ActionInput
  | makeOrderTechIn : PayloadMakeOrderTech → ActionInput
  | makeOrderPokeIn : PayloadMakeOrderPoke → ActionInput
deriving DecidableEq

/-- The external world one request sees: the DB file content, the ViaCEP
response and the sheet behaviour, plus the wall-clock timestamp string. -/
structure World where
  db : Db
  httpResp : HttpResponse
  sheet : SheetWorld
  timestamp : String

/-- The response wrapper `{"action": ..., "response_payload": ...}`. -/
structure ApiResponse where
  action : String
  response_payload : Payload
deriving DecidableEq

/-- The keys of `input_model_mapping` (src/app.py lines 245-251). -/
def knownActions : List String :=
  ["get_address", "save_address", "check_registration",
   "make_order_tech", "make_order_poke"]

/-- The `{"error": True, "detail": "Invalid action"}` payload. -/
def invalidActionPayload : Payload :=
  ⟨true, none, some "Invalid action", none⟩

/-- `api_endpoint` (src/app.py lines 254-279): an action not in
`input_model_mapping` returns the Invalid action wrapper at once;
otherwise the `match` dispatches on the action string and reads the
action-specific fields from the input (a field access on an input of the
wrong model would raise `AttributeError`); the final wildcard arm
returns the Invalid action wrapper. The resulting DB content is
returned alongside the response. -/
def api_endpoint (action : String) (input : ActionInput) (w : World) :
    Except String (ApiResponse × Db) :=
  if knownActions.contains action = false then
    Except.ok (⟨action, invalidActionPayload⟩, w.db)
  else if action = "get_address" then
    match input with
    | ActionInput.getAddressIn cep =>
        (get_address cep w.httpResp).map (fun r => (⟨action, r⟩, w.db))
    | _ => Except.error "AttributeError"
  else if action = "save_address" then
    match input with
    | ActionInput.saveAddressIn p =>
        (save_address p w.db w.httpResp).map (fun rd => (⟨action, rd.1⟩, rd.2))
    | _ => Except.error "AttributeError"
  else if action = "check_registration" then
    match input with
    | ActionInput.checkRegistrationIn rm =>
        Except.ok (⟨action, check_registration w.db rm⟩, w.db)
    | _ => Except.error "AttributeError"
  else if action = "make_order_tech" then
    match input with
    | ActionInput.makeOrderTechIn p =>
        (make_order_tech p (Except.ok w.db) w.sheet w.timestamp).map
          (fun rb => (⟨action, rb.1⟩, w.db))
    | _ => Except.error "AttributeError"
  else if action = "make_order_poke" then
    match input with
    | ActionInput.makeOrderPokeIn p =>
        (make_order_poke p (Except.ok w.db) w.sheet w.timestamp).map
          (fun rb => (⟨action, rb.1⟩, w.db))
    | _ => Except.error "AttributeError"
  else
    Except.ok (⟨action, invalidActionPayload⟩, w.db)

/-! ## Helper lemmas (shared) -/

/-- Looking up the key just written returns the written value
(Python dict update semantics). -/
theorem lookupDb_dbSet_self (db : Db) (k : String) (v : Option Rec) :
    lookupDb (dbSet db k v) k = some v := by
  induction db with
  | nil => simp [dbSet, lookupDb]
  | cons hd tl ih =>
      obtain ⟨k2, w⟩ := hd
      by_cases h : k2 = k
      · simp [dbSet, h, lookupDb]
      · simp [dbSet, h, lookupDb, ih]

/-- Writing one key leaves every other key's lookup unchanged. -/
theorem lookupDb_dbSet_other (db : Db) (k q : String) (v : Option Rec)
    (h : q ≠ k) :
    lookupDb (dbSet db k v) q = lookupDb db q := by
  induction db with
  | nil => simp [dbSet, lookupDb, Ne.symm h]
  | cons hd tl ih =>
      obtain ⟨k2, w⟩ := hd
      by_cases hk : k2 = k
      · subst hk
        simp [dbSet, lookupDb, Ne.symm h]
      · simp [dbSet, hk, lookupDb, ih]

/-- A present key makes the corresponding dict access succeed. -/
theorem getKey_ok_of_hasKey (r : Rec) (k : String) (h : hasKey r k = true) :
    ∃ v, getKey r k = Except.ok v := by
  unfold hasKey at h
  obtain ⟨v, hv⟩ := Option.isSome_iff_exists.mp h
  exact ⟨v, by simp [getKey, hv]⟩

/-- Core lemma: when the identifier is present in the store and the
resolver reports success, `save_address` writes the merged record (the
resolved fields plus the request's house number and display name) under
the identifier's key and returns the `updated` payload. -/
theorem save_address_success_core (p : PayloadSaveAddress) (db : Db)
    (resp : HttpResponse) (d : Payload)
    (hpres : lookupDb db p.rm ≠ none)
    (hget : get_address p.cep resp = Except.ok d)
    (herr : d.error = false) :
    ∃ ru ba ci es : JValue,
      d.data = some (ResultData.recData
        [("cep", JValue.jstr p.cep), ("rua", ru), ("bairro", ba),
         ("cidade", ci), ("estado", es)]) ∧
      save_address p db resp = Except.ok
        (⟨false, some "updated", none,
           some (ResultData.strData
             s!"Address for RM {p.rm} updated successfully.")⟩,
         dbSet db p.rm (some
           [("cep", JValue.jstr p.cep), ("rua", ru), ("bairro", ba),
            ("cidade", ci), ("estado", es), ("numero", JValue.jint p.numero),
            ("nome", JValue.jstr p.nome)])) := by
  cases resp with
  | transportError m =>
      simp [get_address] at hget
      rw [← hget] at herr
      simp at herr
  | httpError m =>
      simp [get_address] at hget
      rw [← hget] at herr
      simp at herr
  | ok body =>
      by_cases he : hasKey body "erro"
      · simp [get_address, he] at hget
        rw [← hget] at herr
        simp at herr
      · cases h1 : getKey body "logradouro" with
        | error e1 => simp [get_address, he, h1] at hget
        | ok ru =>
        cases h2 : getKey body "bairro" with
        | error e2 => simp [get_address, he, h1, h2] at hget
        | ok ba =>
        cases h3 : getKey body "localidade" with
        | error e3 => simp [get_address, he, h1, h2, h3] at hget
        | ok lo =>
        cases h4 : getKey body "uf" with
        | error e4 => simp [get_address, he, h1, h2, h3, h4] at hget
        | ok uf =>
        simp [get_address, he, h1, h2, h3, h4] at hget
        have hga : get_address p.cep (HttpResponse.ok body) =
            Except.ok ⟨false, none, none, some (ResultData.recData
              [("cep", JValue.jstr p.cep), ("rua", ru), ("bairro", ba),
               ("cidade", lo), ("estado", uf)])⟩ := by
          simp [get_address, he, h1, h2, h3, h4]
        refine ⟨ru, ba, lo, uf, ?_, ?_⟩
        · rw [← hget]
        · rcases hdb : lookupDb db p.rm with _ | orec
          · exact absurd hdb hpres
          · cases orec <;>
              simp [save_address, check_registration, hdb, hga, getKey,
                lookupKey]

/-! ## Claim theorems -/

/-- C1: for every store snapshot and identifier, `check_registration`
returns exactly the result determined by the snapshot: absent →
`not_found` error; present mapped to null → `unregistered_address`
error; present mapped to a record → non-error `registered` carrying
exactly that record. The function takes the snapshot and returns a
payload, never producing a modified store. -/
theorem check_registration_trichotomy (db : Db) (rm : String) :
    (lookupDb db rm = none →
      check_registration db rm =
        ⟨true, some "not_found",
          some s!"RM {rm} not found in the database.", none⟩) ∧
    (lookupDb db rm = some none →
      check_registration db rm =
        ⟨true, some "unregistered_address",
          some s!"RM {rm} found in the database, but its address is None.",
          none⟩) ∧
    (∀ r : Rec, lookupDb db rm = some (some r) →
      check_registration db rm =
        ⟨false, some "registered", some s!"RM {rm} found in the database.",
          some (ResultData.recData r)⟩) := by
  refine ⟨fun h => ?_, fun h => ?_, fun r h => ?_⟩ <;>
    simp [check_registration, h]

/-- Witness for C1 on a concrete three-state store. -/
theorem check_registration_trichotomy_witness :
    (lookupDb [("11111", none),
       ("22222", some [("cep", JValue.jstr "01001000")])] "33333" = none ∧
     check_registration [("11111", none),
       ("22222", some [("cep", JValue.jstr "01001000")])] "33333" =
       ⟨true, some "not_found",
         some "RM 33333 not found in the database.", none⟩) ∧
    (check_registration [("11111", none),
       ("22222", some [("cep", JValue.jstr "01001000")])] "11111" =
       ⟨true, some "unregistered_address",
         some "RM 11111 found in the database, but its address is None.",
         none⟩) ∧
    (check_registration [("11111", none),
       ("22222", some [("cep", JValue.jstr "01001000")])] "22222" =
       ⟨false, some "registered", some "RM 22222 found in the database.",
         some (ResultData.recData [("cep", JValue.jstr "01001000")])⟩) := by
  refine ⟨⟨by decide, ?_⟩, ?_, ?_⟩
  · exact (check_registration_trichotomy _ "33333").1 (by decide)
  · exact (check_registration_trichotomy _ "11111").2.1 (by decide)
  · exact (check_registration_trichotomy _ "22222").2.2 _ (by decide)

/-- C3: `save_address` for an identifier absent from the store returns
the `not_found` payload and the store after the call is the store before
the call: no write happens. -/
theorem save_address_not_found_frame (p : PayloadSaveAddress) (db : Db)
    (resp : HttpResponse) (habs : lookupDb db p.rm = none) :
    save_address p db resp = Except.ok
      (⟨true, some "not_found",
         some s!"RM {p.rm} not found in the database.", none⟩, db) := by
  simp [save_address, check_registration, habs]

/-- Witness for C3: saving against an empty store. -/
theorem save_address_not_found_frame_witness :
    lookupDb [] "12345" = none ∧
    save_address ⟨"12345", "01001000", 7, "Ana"⟩ []
      (HttpResponse.ok []) = Except.ok
      (⟨true, some "not_found",
         some "RM 12345 not found in the database.", none⟩, []) :=
  ⟨by decide,
   save_address_not_found_frame ⟨"12345", "01001000", 7, "Ana"⟩ []
     (HttpResponse.ok []) (by decide)⟩

/-- C2: for an identifier present in the store (null or record) and a
postal code the resolver answers without error, `save_address` overwrites
the entry with the record merging the resolved fields with the given
house number and display name, returns the `updated` payload, and an
immediately subsequent `check_registration` returns `registered`
carrying exactly the newly merged record. -/
theorem save_address_then_check_registered (p : PayloadSaveAddress)
    (db : Db) (resp : HttpResponse) (d : Payload)
    (hpres : lookupDb db p.rm ≠ none)
    (hget : get_address p.cep resp = Except.ok d)
    (herr : d.error = false) :
    ∃ merged : Rec,
      (∃ ru ba ci es : JValue,
        d.data = some (ResultData.recData
          [("cep", JValue.jstr p.cep), ("rua", ru), ("bairro", ba),
           ("cidade", ci), ("estado", es)]) ∧
        merged =
          [("cep", JValue.jstr p.cep), ("rua", ru), ("bairro", ba),
           ("cidade", ci), ("estado", es), ("numero", JValue.jint p.numero),
           ("nome", JValue.jstr p.nome)]) ∧
      save_address p db resp = Except.ok
        (⟨false, some "updated", none,
           some (ResultData.strData
             s!"Address for RM {p.rm} updated successfully.")⟩,
         dbSet db p.rm (some merged)) ∧
      check_registration (dbSet db p.rm (some merged)) p.rm =
        ⟨false, some "registered",
          some s!"RM {p.rm} found in the database.",
          some (ResultData.recData merged)⟩ := by
  obtain ⟨ru, ba, ci, es, hd, hsave⟩ :=
    save_address_success_core p db resp d hpres hget herr
  refine ⟨_, ⟨ru, ba, ci, es, hd, rfl⟩, hsave, ?_⟩
  simp [check_registration, lookupDb_dbSet_self]

/-- Witness for C2: a registered identifier, a stub resolver response,
and the subsequent successful re-check. -/
theorem save_address_then_check_registered_witness :
    lookupDb [("12345", some [("cep", JValue.jstr "99999999")])] "12345" ≠
      none ∧
    get_address "01001000" (HttpResponse.ok
      [("logradouro", JValue.jstr "Praca da Se"),
       ("bairro", JValue.jstr "Se"),
       ("localidade", JValue.jstr "Sao Paulo"),
       ("uf", JValue.jstr "SP")]) = Except.ok
      ⟨false, none, none, some (ResultData.recData
        [("cep", JValue.jstr "01001000"),
         ("rua", JValue.jstr "Praca da Se"),
         ("bairro", JValue.jstr "Se"),
         ("cidade", JValue.jstr "Sao Paulo"),
         ("estado", JValue.jstr "SP")])⟩ ∧
    (∃ merged : Rec,
      (∃ ru ba ci es : JValue,
        (some (ResultData.recData
          [("cep", JValue.jstr "01001000"),
           ("rua", JValue.jstr "Praca da Se"),
           ("bairro", JValue.jstr "Se"),
           ("cidade", JValue.jstr "Sao Paulo"),
           ("estado", JValue.jstr "SP")]) : Option ResultData) =
          some (ResultData.recData
            [("cep", JValue.jstr "01001000"), ("rua", ru), ("bairro", ba),
             ("cidade", ci), ("estado", es)]) ∧
        merged =
          [("cep", JValue.jstr "01001000"), ("rua", ru), ("bairro", ba),
           ("cidade", ci), ("estado", es), ("numero", JValue.jint 7),
           ("nome", JValue.jstr "Ana")]) ∧
      save_address ⟨"12345", "01001000", 7, "Ana"⟩
        [("12345", some [("cep", JValue.jstr "99999999")])]
        (HttpResponse.ok
          [("logradouro", JValue.jstr "Praca da Se"),
           ("bairro", JValue.jstr "Se"),
           ("localidade", JValue.jstr "Sao Paulo"),
           ("uf", JValue.jstr "SP")]) = Except.ok
        (⟨false, some "updated", none,
           some (ResultData.strData
             "Address for RM 12345 updated successfully.")⟩,
         dbSet [("12345", some [("cep", JValue.jstr "99999999")])] "12345"
           (some merged)) ∧
      check_registration
        (dbSet [("12345", some [("cep", JValue.jstr "99999999")])] "12345"
          (some merged)) "12345" =
        ⟨false, some "registered", some "RM 12345 found in the database.",
          some (ResultData.recData merged)⟩) :=
  ⟨by decide, rfl,
   save_address_then_check_registered ⟨"12345", "01001000", 7, "Ana"⟩
     [("12345", some [("cep", JValue.jstr "99999999")])]
     (HttpResponse.ok
       [("logradouro", JValue.jstr "Praca da Se"),
        ("bairro", JValue.jstr "Se"),
        ("localidade", JValue.jstr "Sao Paulo"),
        ("uf", JValue.jstr "SP")])
     ⟨false, none, none, some (ResultData.recData
       [("cep", JValue.jstr "01001000"),
        ("rua", JValue.jstr "Praca da Se"),
        ("bairro", JValue.jstr "Se"),
        ("cidade", JValue.jstr "Sao Paulo"),
        ("estado", JValue.jstr "SP")])⟩
     (by decide) rfl rfl⟩

/-- C4: an identifier present but mapped to null (the
`unregistered_address` state) does not block `save_address`: the check
reports `unregistered_address`, yet on successful resolution the merged
record is written and the `updated` payload returned. -/
theorem save_address_unregistered_proceeds (p : PayloadSaveAddress)
    (db : Db) (resp : HttpResponse) (d : Payload)
    (hnull : lookupDb db p.rm = some none)
    (hget : get_address p.cep resp = Except.ok d)
    (herr : d.error = false) :
    (check_registration db p.rm).status = some "unregistered_address" ∧
    ∃ ru ba ci es : JValue,
      save_address p db resp = Except.ok
        (⟨false, some "updated", none,
           some (ResultData.strData
             s!"Address for RM {p.rm} updated successfully.")⟩,
         dbSet db p.rm (some
           [("cep", JValue.jstr p.cep), ("rua", ru), ("bairro", ba),
            ("cidade", ci), ("estado", es), ("numero", JValue.jint p.numero),
            ("nome", JValue.jstr p.nome)])) := by
  obtain ⟨ru, ba, ci, es, _, hsave⟩ :=
    save_address_success_core p db resp d (by simp [hnull]) hget herr
  exact ⟨by simp [check_registration, hnull], ru, ba, ci, es, hsave⟩

/-- Witness for C4: an identifier mapped to null gets its address saved. -/
theorem save_address_unregistered_proceeds_witness :
    lookupDb [("12345", none)] "12345" = some none ∧
    ((check_registration [("12345", none)] "12345").status =
        some "unregistered_address" ∧
     ∃ ru ba ci es : JValue,
       save_address ⟨"12345", "01001000", 7, "Ana"⟩ [("12345", none)]
         (HttpResponse.ok
           [("logradouro", JValue.jstr "Praca da Se"),
            ("bairro", JValue.jstr "Se"),
            ("localidade", JValue.jstr "Sao Paulo"),
            ("uf", JValue.jstr "SP")]) = Except.ok
         (⟨false, some "updated", none,
            some (ResultData.strData
              "Address for RM 12345 updated successfully.")⟩,
          dbSet [("12345", none)] "12345"
            (some
              [("cep", JValue.jstr "01001000"), ("rua", ru), ("bairro", ba),
               ("cidade", ci), ("estado", es), ("numero", JValue.jint 7),
               ("nome", JValue.jstr "Ana")]))) :=
  ⟨by decide,
   save_address_unregistered_proceeds ⟨"12345", "01001000", 7, "Ana"⟩
     [("12345", none)]
     (HttpResponse.ok
       [("logradouro", JValue.jstr "Praca da Se"),
        ("bairro", JValue.jstr "Se"),
        ("localidade", JValue.jstr "Sao Paulo"),
        ("uf", JValue.jstr "SP")])
     ⟨false, none, none, some (ResultData.recData
       [("cep", JValue.jstr "01001000"),
        ("rua", JValue.jstr "Praca da Se"),
        ("bairro", JValue.jstr "Se"),
        ("cidade", JValue.jstr "Sao Paulo"),
        ("estado", JValue.jstr "SP")])⟩
     (by decide) rfl rfl⟩

/-- C10: a successful `save_address` on identifier r only replaces the
entry for r: the new store maps r to the merged record, whose keys are
exactly cep, rua, bairro, cidade, estado, numero, nome with cep taken
from the request, and every other identifier's entry is unchanged. -/
theorem save_address_frame (p : PayloadSaveAddress) (db : Db)
    (resp : HttpResponse) (d : Payload)
    (hpres : lookupDb db p.rm ≠ none)
    (hget : get_address p.cep resp = Except.ok d)
    (herr : d.error = false) :
    ∃ merged : Rec,
      save_address p db resp = Except.ok
        (⟨false, some "updated", none,
           some (ResultData.strData
             s!"Address for RM {p.rm} updated successfully.")⟩,
         dbSet db p.rm (some merged)) ∧
      merged.map Prod.fst =
        ["cep", "rua", "bairro", "cidade", "estado", "numero", "nome"] ∧
      lookupKey merged "cep" = some (JValue.jstr p.cep) ∧
      lookupDb (dbSet db p.rm (some merged)) p.rm = some (some merged) ∧
      ∀ k : String, k ≠ p.rm →
        lookupDb (dbSet db p.rm (some merged)) k = lookupDb db k := by
  obtain ⟨ru, ba, ci, es, _, hsave⟩ :=
    save_address_success_core p db resp d hpres hget herr
  refine ⟨_, hsave, by simp, by simp [lookupKey], lookupDb_dbSet_self _ _ _,
    fun k hk => lookupDb_dbSet_other db p.rm k _ hk⟩

/-- Witness for C10: the frame property on a two-entry store. -/
theorem save_address_frame_witness :
    lookupDb [("12345", some [("cep", JValue.jstr "99999999")]),
      ("54321", none)] "12345" ≠ none ∧
    ∃ merged : Rec,
      save_address ⟨"12345", "01001000", 7, "Ana"⟩
        [("12345", some [("cep", JValue.jstr "99999999")]), ("54321", none)]
        (HttpResponse.ok
          [("logradouro", JValue.jstr "Praca da Se"),
           ("bairro", JValue.jstr "Se"),
           ("localidade", JValue.jstr "Sao Paulo"),
           ("uf", JValue.jstr "SP")]) = Except.ok
        (⟨false, some "updated", none,
           some (ResultData.strData
             "Address for RM 12345 updated successfully.")⟩,
         dbSet [("12345", some [("cep", JValue.jstr "99999999")]),
           ("54321", none)] "12345" (some merged)) ∧
      merged.map Prod.fst =
        ["cep", "rua", "bairro", "cidade", "estado", "numero", "nome"] ∧
      lookupKey merged "cep" = some (JValue.jstr "01001000") ∧
      lookupDb (dbSet [("12345", some [("cep", JValue.jstr "99999999")]),
        ("54321", none)] "12345" (some merged)) "12345" =
        some (some merged) ∧
      ∀ k : String, k ≠ "12345" →
        lookupDb (dbSet [("12345", some [("cep", JValue.jstr "99999999")]),
          ("54321", none)] "12345" (some merged)) k =
        lookupDb [("12345", some [("cep", JValue.jstr "99999999")]),
          ("54321", none)] k :=
  ⟨by decide,
   save_address_frame ⟨"12345", "01001000", 7, "Ana"⟩
     [("12345", some [("cep", JValue.jstr "99999999")]), ("54321", none)]
     (HttpResponse.ok
       [("logradouro", JValue.jstr "Praca da Se"),
        ("bairro", JValue.jstr "Se"),
        ("localidade", JValue.jstr "Sao Paulo"),
        ("uf", JValue.jstr "SP")])
     ⟨false, none, none, some (ResultData.recData
       [("cep", JValue.jstr "01001000"),
        ("rua", JValue.jstr "Praca da Se"),
        ("bairro", JValue.jstr "Se"),
        ("cidade", JValue.jstr "Sao Paulo"),
        ("estado", JValue.jstr "SP")])⟩
     (by decide) rfl rfl⟩

/-- C8: a request whose action is not one of the five known actions gets
the uniform Invalid action payload wrapped as the action plus
response payload, with the store untouched. -/
theorem api_endpoint_invalid_action (action : String) (input : ActionInput)
    (w : World) (h : knownActions.contains action = false) :
    api_endpoint action input w =
      Except.ok (⟨action, invalidActionPayload⟩, w.db) := by
  unfold api_endpoint
  rw [h]
  simp

/-- Witness for C8 at the unknown action "delete_everything". -/
theorem api_endpoint_invalid_action_witness :
    knownActions.contains "delete_everything" = false ∧
    api_endpoint "delete_everything" (ActionInput.checkRegistrationIn "12345")
      ⟨[], HttpResponse.ok [], ⟨none, none⟩, "ts"⟩ =
      Except.ok (⟨"delete_everything", invalidActionPayload⟩, []) :=
  ⟨by decide,
   api_endpoint_invalid_action "delete_everything"
     (ActionInput.checkRegistrationIn "12345")
     ⟨[], HttpResponse.ok [], ⟨none, none⟩, "ts"⟩ (by decide)⟩

/-- C5: an order (tech or poke) for a non-registered identifier — absent
from the store, or present mapped to null — returns the Registration
Checker's error result verbatim and the sheet append step is never
invoked (no row is handed to `append_row`). -/
theorem make_order_unregistered_no_append (db : Db) (w : SheetWorld)
    (ts : String) :
    (∀ pt : PayloadMakeOrderTech,
       lookupDb db pt.rm = none ∨ lookupDb db pt.rm = some none →
       make_order_tech pt (Except.ok db) w ts =
         Except.ok (check_registration db pt.rm, none)) ∧
    (∀ pp : PayloadMakeOrderPoke,
       lookupDb db pp.rm = none ∨ lookupDb db pp.rm = some none →
       make_order_poke pp (Except.ok db) w ts =
         Except.ok (check_registration db pp.rm, none)) := by
  constructor <;> intro q hq <;> rcases hq with h | h <;>
    simp [make_order_tech, make_order_poke, check_registration, h]

/-- Witness for C5: an absent identifier for the tech order and a
null-mapped identifier for the poke order; in both cases no row reaches
the append step. -/
theorem make_order_unregistered_no_append_witness :
    (lookupDb [("11111", none)] "22222" = none ∨
      lookupDb [("11111", none)] "22222" = some none) ∧
    make_order_tech ⟨"22222", "laptop", "acme", 10⟩
      (Except.ok [("11111", none)]) ⟨none, none⟩ "2024-01-01" =
      Except.ok (check_registration [("11111", none)] "22222", none) ∧
    make_order_poke ⟨"11111", "M", "rice", "mango", "onion", "salmon",
      "teriyaki", 30⟩ (Except.ok [("11111", none)]) ⟨none, none⟩
      "2024-01-01" =
      Except.ok (check_registration [("11111", none)] "11111", none) := by
  refine ⟨Or.inl (by decide), ?_, ?_⟩
  · exact (make_order_unregistered_no_append [("11111", none)] ⟨none, none⟩
      "2024-01-01").1 ⟨"22222", "laptop", "acme", 10⟩ (Or.inl (by decide))
  · exact (make_order_unregistered_no_append [("11111", none)] ⟨none, none⟩
      "2024-01-01").2 ⟨"11111", "M", "rice", "mango", "onion", "salmon",
        "teriyaki", 30⟩ (Or.inr (by decide))

/-- C6 counterexample: a successful HTTP response whose JSON body is the
empty object carries neither `erro` nor `logradouro`, so `get_address`
raises `KeyError` past its boundary (the `except` clause catches only
`RequestException`) instead of returning a tagged result. -/
theorem get_address_missing_field_raises :
    get_address "01001000" (HttpResponse.ok []) =
      Except.error "KeyError: logradouro" := rfl

/-- C6 amended: for every transport failure, every HTTP error status,
and every JSON body that contains the key `erro` or contains all four
address fields (logradouro, bairro, localidade, uf), `get_address`
returns a tagged result — error true with a detail, or error false with
data. A body missing an address field instead raises `KeyError`. -/
theorem get_address_total_on_wellformed (cep : String) (resp : HttpResponse)
    (h : (∃ m, resp = HttpResponse.transportError m) ∨
         (∃ m, resp = HttpResponse.httpError m) ∨
         (∃ body, resp = HttpResponse.ok body ∧
            (hasKey body "erro" = true ∨
             (hasKey body "logradouro" = true ∧ hasKey body "bairro" = true ∧
              hasKey body "localidade" = true ∧ hasKey body "uf" = true)))) :
    ∃ r : Payload, get_address cep resp = Except.ok r ∧
      ((r.error = true ∧ r.detail.isSome = true) ∨
       (r.error = false ∧ r.data.isSome = true)) := by
  rcases h with ⟨m, rfl⟩ | ⟨m, rfl⟩ | ⟨body, rfl, hb⟩
  · exact ⟨⟨true, none, some m, none⟩, rfl, Or.inl ⟨rfl, rfl⟩⟩
  · exact ⟨⟨true, none, some m, none⟩, rfl, Or.inl ⟨rfl, rfl⟩⟩
  · by_cases he : hasKey body "erro"
    · exact ⟨⟨true, none, some "CEP not found.", none⟩,
        by simp [get_address, he], Or.inl ⟨rfl, rfl⟩⟩
    · rcases hb with he2 | ⟨h1, h2, h3, h4⟩
      · exact absurd he2 he
      · obtain ⟨v1, hv1⟩ := getKey_ok_of_hasKey body "logradouro" h1
        obtain ⟨v2, hv2⟩ := getKey_ok_of_hasKey body "bairro" h2
        obtain ⟨v3, hv3⟩ := getKey_ok_of_hasKey body "localidade" h3
        obtain ⟨v4, hv4⟩ := getKey_ok_of_hasKey body "uf" h4
        exact ⟨⟨false, none, none, some (ResultData.recData
            [("cep", JValue.jstr cep), ("rua", v1), ("bairro", v2),
             ("cidade", v3), ("estado", v4)])⟩,
          by simp [get_address, he, hv1, hv2, hv3, hv4], Or.inr ⟨rfl, rfl⟩⟩

/-- Witness for amended C6: a body carrying the `erro` flag yields the
tagged soft error. -/
theorem get_address_total_on_wellformed_witness :
    ∃ r : Payload,
      get_address "00000000" (HttpResponse.ok [("erro", JValue.jb true)]) =
        Except.ok r ∧
      ((r.error = true ∧ r.detail.isSome = true) ∨
       (r.error = false ∧ r.data.isSome = true)) :=
  get_address_total_on_wellformed "00000000"
    (HttpResponse.ok [("erro", JValue.jb true)])
    (Or.inr (Or.inr ⟨[("erro", JValue.jb true)], rfl, Or.inl (by decide)⟩))

/-- C7 counterexample: the registration check (with its `read_db`) runs
before the `try` block of `make_order_tech`, so a failing store read
propagates out of the order operation as an exception instead of being
returned as data. -/
theorem make_order_db_read_failure_propagates :
    make_order_tech ⟨"12345", "laptop", "acme", 10⟩
      (Except.error "IOError: could not read DB file") ⟨none, none⟩
      "2024-01-01 00:00:00" =
      Except.error "IOError: could not read DB file" := rfl

/-- C7 amended: once the store read performed by the registration check
succeeds, both order operations catch every failure and return it as
data whose status lies in the taxonomy (checker errors verbatim;
`api_error` for sheet API errors, `missing_data` for a missing address
field, `unknown_error` otherwise) — no exception propagates. A failing
store read, which the claim also covered, instead propagates. -/
theorem make_order_catches_inside_try (db : Db) (w : SheetWorld)
    (ts : String) :
    (∀ pt : PayloadMakeOrderTech, ∃ out,
       make_order_tech pt (Except.ok db) w ts = Except.ok out ∧
       (out.1.error = true →
         (out.1.status = some "not_found" ∨
          out.1.status = some "unregistered_address" ∨
          out.1.status = some "api_error" ∨
          out.1.status = some "missing_data" ∨
          out.1.status = some "unknown_error"))) ∧
    (∀ pp : PayloadMakeOrderPoke, ∃ out,
       make_order_poke pp (Except.ok db) w ts = Except.ok out ∧
       (out.1.error = true →
         (out.1.status = some "not_found" ∨
          out.1.status = some "unregistered_address" ∨
          out.1.status = some "api_error" ∨
          out.1.status = some "missing_data" ∨
          out.1.status = some "unknown_error"))) := by
  constructor
  · intro q
    rcases hdb : lookupDb db q.rm with _ | (_ | rec)
    · exact ⟨(check_registration db q.rm, none),
        by simp [make_order_tech, check_registration, hdb],
        by simp [check_registration, hdb]⟩
    · exact ⟨(check_registration db q.rm, none),
        by simp [make_order_tech, check_registration, hdb],
        by simp [check_registration, hdb]⟩
    · cases hoe : w.openExn with
      | some e =>
          refine ⟨(sheetExnPayload e, none), ?_, ?_⟩
          · simp [make_order_tech, check_registration, hdb, hoe]
          · cases e <;>
              simp [sheetExnPayload, apiErrorPayload, unknownErrorPayload]
      | none =>
          cases hks : getKeys rec orderAddressKeys with
          | error k =>
              refine ⟨(missingDataPayload k, none), ?_, ?_⟩
              · simp [make_order_tech, check_registration, hdb, hoe, hks]
              · simp [missingDataPayload]
          | ok vs =>
              cases hae : w.appendExn with
              | some e =>
                  refine ⟨(sheetExnPayload e,
                      some ([JValue.jstr ts, JValue.jstr q.rm,
                        JValue.jstr q.produto, JValue.jstr q.marca,
                        JValue.jnum q.valor] ++ vs)), ?_, ?_⟩
                  · simp [make_order_tech, check_registration, hdb, hoe,
                      hks, hae]
                  · cases e <;>
                      simp [sheetExnPayload, apiErrorPayload,
                        unknownErrorPayload]
              | none =>
                  refine ⟨(orderMadePayload q.rm,
                      some ([JValue.jstr ts, JValue.jstr q.rm,
                        JValue.jstr q.produto, JValue.jstr q.marca,
                        JValue.jnum q.valor] ++ vs)), ?_, ?_⟩
                  · simp [make_order_tech, check_registration, hdb, hoe,
                      hks, hae]
                  · simp [orderMadePayload]
  · intro q
    rcases hdb : lookupDb db q.rm with _ | (_ | rec)
    · exact ⟨(check_registration db q.rm, none),
        by simp [make_order_poke, check_registration, hdb],
        by simp [check_registration, hdb]⟩
    · exact ⟨(check_registration db q.rm, none),
        by simp [make_order_poke, check_registration, hdb],
        by simp [check_registration, hdb]⟩
    · cases hoe : w.openExn with
      | some e =>
          refine ⟨(sheetExnPayload e, none), ?_, ?_⟩
          · simp [make_order_poke, check_registration, hdb, hoe]
          · cases e <;>
              simp [sheetExnPayload, apiErrorPayload, unknownErrorPayload]
      | none =>
          cases hks : getKeys rec orderAddressKeys with
          | error k =>
              refine ⟨(missingDataPayload k, none), ?_, ?_⟩
              · simp [make_order_poke, check_registration, hdb, hoe, hks]
              · simp [missingDataPayload]
          | ok vs =>
              cases hae : w.appendExn with
              | some e =>
                  refine ⟨(sheetExnPayload e,
                      some ([JValue.jstr ts, JValue.jstr q.rm,
                        JValue.jstr q.tamanho, JValue.jstr q.base,
                        JValue.jstr q.topping, JValue.jstr q.crunch,
                        JValue.jstr q.proteina, JValue.jstr q.molho,
                        JValue.jnum q.valor] ++ vs)), ?_, ?_⟩
                  · simp [make_order_poke, check_registration, hdb, hoe,
                      hks, hae]
                  · cases e <;>
                      simp [sheetExnPayload, apiErrorPayload,
                        unknownErrorPayload]
              | none =>
                  refine ⟨(orderMadePayload q.rm,
                      some ([JValue.jstr ts, JValue.jstr q.rm,
                        JValue.jstr q.tamanho, JValue.jstr q.base,
                        JValue.jstr q.topping, JValue.jstr q.crunch,
                        JValue.jstr q.proteina, JValue.jstr q.molho,
                        JValue.jnum q.valor] ++ vs)), ?_, ?_⟩
                  · simp [make_order_poke, check_registration, hdb, hoe,
                      hks, hae]
                  · simp [orderMadePayload]

/-- Witness for amended C7: a record missing its address fields under a
working sheet yields the caught `missing_data` taxonomy entry. -/
theorem make_order_catches_inside_try_witness :
    ∃ out,
      make_order_tech ⟨"12345", "laptop", "acme", 10⟩
        (Except.ok [("12345", some [("nome", JValue.jstr "Ana")])])
        ⟨none, none⟩ "2024-01-01" = Except.ok out ∧
      (out.1.error = true →
        (out.1.status = some "not_found" ∨
         out.1.status = some "unregistered_address" ∨
         out.1.status = some "api_error" ∨
         out.1.status = some "missing_data" ∨
         out.1.status = some "unknown_error")) :=
  (make_order_catches_inside_try
    [("12345", some [("nome", JValue.jstr "Ana")])] ⟨none, none⟩
    "2024-01-01").1 ⟨"12345", "laptop", "acme", 10⟩

/-- C9: a lookup-service body containing the key `erro` — whatever value
it maps to, including a false one — makes `get_address` return the
"CEP not found." soft error: the code tests key presence, not truth. -/
theorem get_address_erro_key_presence (cep : String) (body : Rec)
    (h : hasKey body "erro" = true) :
    get_address cep (HttpResponse.ok body) =
      Except.ok ⟨true, none, some "CEP not found.", none⟩ := by
  simp [get_address, h]

/-- Witness for C9 with `erro` mapped to the false boolean. -/
theorem get_address_erro_key_presence_witness :
    hasKey [("erro", JValue.jb false)] "erro" = true ∧
    get_address "01001000" (HttpResponse.ok [("erro", JValue.jb false)]) =
      Except.ok ⟨true, none, some "CEP not found.", none⟩ :=
  ⟨by decide,
   get_address_erro_key_presence "01001000" [("erro", JValue.jb false)]
     (by decide)⟩

end PokeStore
